import Mathlib

/-!
Shallow embedding of `src/sublime_tower.py` (a Sublime Text plugin that opens
git repositories in the Tower GUI client).

The effectful layer of the plugin is modelled explicitly:
* an `Env` supplies the behaviour of the external world: the outcome of every
  shell command spawned via `subprocess.check_output` (keyed by the exact
  command string), the Python functions `os.path.isfile`, and `os.path.dirname`;
* every translated function returns `Effects × Except PyError α`, where
  `Effects` records the shell commands spawned and the error-message boxes
  displayed (via `sublime.error_message`), in order, and `Except PyError`
  models normal return versus a propagating Python exception.

`subprocess.check_output` raises `CalledProcessError` on a non-zero exit and
`TimeoutExpired` on timeout; the source catches only `CalledProcessError`
(`except subprocess.CalledProcessError`), which the embedding reflects by
matching on the error constructor.
-/

/-- Outcome of one spawned shell command: it either completed with an exit
code and captured output, or hit the `timeout=` ceiling. -/
inductive ProcOutcome where
  | completed (exitCode : Nat) (stdout : String)
  | timedOut
deriving DecidableEq

/-- Python exceptions relevant to the source: `subprocess.CalledProcessError`,
`subprocess.TimeoutExpired`, and `IndexError` (from `paths[0]` on an empty
list). -/
inductive PyError where
  | calledProcessError (exitCode : Nat) (output : String)
  | timeoutExpired
  | indexError
deriving DecidableEq

/-- Observable side effects of one invocation: shell commands spawned and
user-facing error messages displayed, each in order. -/
structure Effects where
  spawned : List String
  messages : List String
deriving DecidableEq

def Effects.append (a b : Effects) : Effects :=
  ⟨a.spawned ++ b.spawned, a.messages ++ b.messages⟩

def Effects.none : Effects := ⟨[], []⟩

/-- The external world: per-command subprocess behaviour, `os.path.isfile`,
and `os.path.dirname` (the latter two are host-library functions, kept
abstract). -/
structure Env where
  run : String → ProcOutcome
  isfile : String → Bool
  dirname : String → String

/-- Translation of `subprocess.check_output(cmd, shell=True, timeout=...)`:
returns captured
stdout on exit code 0, raises `CalledProcessError` on a non-zero exit, raises
`TimeoutExpired` on timeout. The spawn itself is recorded in all cases. -/
def check_output (env : Env) (cmd : String) : Effects × Except PyError String :=
  match env.run cmd with
  | ProcOutcome.completed 0 out => (⟨[cmd], []⟩, Except.ok out)
  | ProcOutcome.completed c out => (⟨[cmd], []⟩, Except.error (PyError.calledProcessError c out))
  | ProcOutcome.timedOut => (⟨[cmd], []⟩, Except.error PyError.timeoutExpired)

/-- Sequencing with Python exception propagation: run `r`; on normal return
feed the value to `f`, accumulating effects; on an exception, stop. -/
def andThen {α β : Type} (r : Effects × Except PyError α)
    (f : α → Effects × Except PyError β) : Effects × Except PyError β :=
  match r with
  | (eff, Except.ok a) =>
    let s := f a
    (Effects.append eff s.1, s.2)
  | (eff, Except.error e) => (eff, Except.error e)

/-- Translation of the Python method `str.strip()` with no argument: remove leading and trailing
whitespace characters. -/
def pyStrip (s : String) : String :=
  String.mk (((s.data.dropWhile Char.isWhitespace).reverse.dropWhile Char.isWhitespace).reverse)

def build_cmd_is_in_repo (path : String) : String :=
  "cd \"" ++ path ++ "\" && git rev-parse --is-inside-work-tree"

def build_cmd_get_repo_root (path : String) : String :=
  "cd \"" ++ path ++ "\" && git rev-parse --show-toplevel"

def build_cmd_open_in_tower (path : String) : String :=
  "gittower \"" ++ path ++ "\""

/-- Translation of `is_in_repo(path)`: run the detection query; on normal completion compare
the stripped output with the literal "true"; catch `CalledProcessError` and
return false; any other exception (notably `TimeoutExpired`) propagates. -/
def is_in_repo (env : Env) (path : String) : Effects × Except PyError Bool :=
  match check_output env (build_cmd_is_in_repo path) with
  | (eff, Except.ok out) => (eff, Except.ok (pyStrip out == "true"))
  | (eff, Except.error (PyError.calledProcessError _ _)) => (eff, Except.ok false)
  | (eff, Except.error e) => (eff, Except.error e)

/-- Translation of `get_repo_root(path)`: run the top-level query with no `try`; the stripped
stdout is returned, and every failure propagates to the caller. -/
def get_repo_root (env : Env) (path : String) : Effects × Except PyError String :=
  match check_output env (build_cmd_get_repo_root path) with
  | (eff, Except.ok out) => (eff, Except.ok (pyStrip out))
  | (eff, Except.error e) => (eff, Except.error e)

def towerCliErrorMsg : String :=
  "Error: Tower CLI is not installed.\n\nEnable it at: Tower > Preferences... > Integration > Tower Command Line Utility"

def unsavedFileMsg : String := "Error: Cannot open an unsaved file in Tower."

/-- Translation of `open_in_tower(path)`: spawn the GUI client; catch `CalledProcessError`
and display one message; any other exception (notably `TimeoutExpired`)
propagates. -/
def open_in_tower (env : Env) (path : String) : Effects × Except PyError Unit :=
  match check_output env (build_cmd_open_in_tower path) with
  | (eff, Except.ok _) => (eff, Except.ok ())
  | (eff, Except.error (PyError.calledProcessError _ _)) =>
    (Effects.append eff ⟨[], [towerCliErrorMsg]⟩, Except.ok ())
  | (eff, Except.error e) => (eff, Except.error e)

/-- In Sublime, `self.view.file_name()` returns `None` for an unsaved buffer; the source
tests it with `if not current_file_path`, which is also true of the empty
string. -/
def py_falsy : Option String → Bool
  | Option.none => true
  | Option.some s => s.isEmpty

/-- Translation of `TowerOpenCommand.run`: message and return when there is no saved file;
otherwise gate on `is_in_repo` of the containing directory, resolve the root,
and launch. -/
def towerOpen_run (env : Env) (fileName : Option String) : Effects × Except PyError Unit :=
  match fileName with
  | Option.none => (⟨[], [unsavedFileMsg]⟩, Except.ok ())
  | Option.some p =>
    if p.isEmpty then (⟨[], [unsavedFileMsg]⟩, Except.ok ())
    else
      let current_dir := env.dirname p
      andThen (is_in_repo env current_dir) (fun b =>
        if b then
          andThen (get_repo_root env current_dir) (fun root => open_in_tower env root)
        else (Effects.none, Except.ok ()))

/-- Translation of `TowerOpenCommand.is_visible`: false without a saved file, else the
detection result on the containing directory. -/
def towerOpen_is_visible (env : Env) (fileName : Option String) : Effects × Except PyError Bool :=
  match fileName with
  | Option.none => (Effects.none, Except.ok false)
  | Option.some p =>
    if p.isEmpty then (Effects.none, Except.ok false)
    else is_in_repo env (env.dirname p)

/-- Translation of `TowerOpenFromSidebarCommand.run`: `paths[0]` (an `IndexError` when the
list is empty), normalize a file to its containing directory, then gate,
resolve and launch as in the file-based trigger. -/
def towerOpenFromSidebar_run (env : Env) (paths : List String) : Effects × Except PyError Unit :=
  match paths.get? 0 with
  | Option.none => (Effects.none, Except.error PyError.indexError)
  | Option.some given_path =>
    let current_dir := if env.isfile given_path then env.dirname given_path else given_path
    andThen (is_in_repo env current_dir) (fun b =>
      if b then
        andThen (get_repo_root env current_dir) (fun root => open_in_tower env root)
      else (Effects.none, Except.ok ()))

/-- Translation of `TowerOpenFromSidebarCommand.is_visible`: false unless exactly one entry
is selected; then the detection result on the normalized entry. -/
def towerOpenFromSidebar_is_visible (env : Env) (paths : List String) : Effects × Except PyError Bool :=
  if paths.length ≠ 1 then (Effects.none, Except.ok false)
  else
    match paths.get? 0 with
    | Option.none => (Effects.none, Except.error PyError.indexError)
    | Option.some given_path =>
      let current_dir := if env.isfile given_path then env.dirname given_path else given_path
      is_in_repo env current_dir

/-- Translation of `TowerCreateNewRepositoryFromSidebarCommand.run`: `dirs[0]` (an
`IndexError` when the list is empty) passed straight to `open_in_tower`,
with no detection and no file-to-directory normalization. -/
def towerCreate_run (env : Env) (dirs : List String) : Effects × Except PyError Unit :=
  match dirs.get? 0 with
  | Option.none => (Effects.none, Except.error PyError.indexError)
  | Option.some given_path => open_in_tower env given_path

/-- Translation of `TowerCreateNewRepositoryFromSidebarCommand.is_visible`:
false unless
exactly one entry is selected; then the negated detection result on the
normalized entry. -/
def towerCreate_is_visible (env : Env) (dirs : List String) : Effects × Except PyError Bool :=
  if dirs.length ≠ 1 then (Effects.none, Except.ok false)
  else
    match dirs.get? 0 with
    | Option.none => (Effects.none, Except.error PyError.indexError)
    | Option.some given_path =>
      let current_dir := if env.isfile given_path then env.dirname given_path else given_path
      andThen (is_in_repo env current_dir) (fun b => (Effects.none, Except.ok (!b)))

/-! Concrete environments used as counterexamples and witnesses. -/

/-- A world in which every spawned command hits its timeout ceiling. -/
def envTimeoutAll : Env := ⟨fun _ => ProcOutcome.timedOut, fun _ => false, fun p => p⟩

/-- A world in which every spawned command succeeds printing "true". -/
def envAllTrue : Env :=
  ⟨fun _ => ProcOutcome.completed 0 "true\n", fun _ => false, fun p => p⟩

/-- Claim C1 (corrected): the claim as stated is false — when the detection
query times out, `is_in_repo` does not return false; the `TimeoutExpired`
exception propagates to the caller, since the source catches only
`CalledProcessError`. -/
theorem C1_counterexample :
    (is_in_repo envTimeoutAll "/repo").2 = Except.error PyError.timeoutExpired := by
  rfl

/-- Claim C1 (amended): a completed detection query with non-zero exit status
(including a non-existent path, where the shell `cd` fails) is swallowed and
yields false, and a zero-exit output other than trimmed "true" also yields
false; but a timeout of the 2-second ceiling is not swallowed: it propagates
as an error to the caller. -/
theorem C1_amended_is_in_repo (env : Env) (path : String) :
    (is_in_repo env path).2 =
      match env.run (build_cmd_is_in_repo path) with
      | ProcOutcome.completed 0 out => Except.ok (pyStrip out == "true")
      | ProcOutcome.completed (Nat.succ _) _ => Except.ok false
      | ProcOutcome.timedOut => Except.error PyError.timeoutExpired := by
  cases h : env.run (build_cmd_is_in_repo path) with
  | completed c out =>
    cases c with
    | zero => simp [is_in_repo, check_output, h]
    | succ n => simp [is_in_repo, check_output, h]
  | timedOut => simp [is_in_repo, check_output, h]

/-- Claim C2 (corrected): the claim as stated is false — when the GUI-client
spawn times out, `open_in_tower` neither returns normally nor shows a
message; the `TimeoutExpired` exception propagates. -/
theorem C2_counterexample :
    open_in_tower envTimeoutAll "/repo" =
      (⟨[build_cmd_open_in_tower "/repo"], []⟩, Except.error PyError.timeoutExpired) := by
  rfl

/-- Claim C2 (amended): if the spawn completes with exit code 0, no message
is shown; if it completes with a non-zero exit, the failure is caught and
exactly one message telling the user how to enable the command-line
integration of the client is shown; but if the spawn times out, the error propagates (with
no message) instead of being caught. -/
theorem C2_amended_open_in_tower (env : Env) (path : String) :
    open_in_tower env path =
      match env.run (build_cmd_open_in_tower path) with
      | ProcOutcome.completed 0 _ =>
        (⟨[build_cmd_open_in_tower path], []⟩, Except.ok ())
      | ProcOutcome.completed (Nat.succ _) _ =>
        (⟨[build_cmd_open_in_tower path], [towerCliErrorMsg]⟩, Except.ok ())
      | ProcOutcome.timedOut =>
        (⟨[build_cmd_open_in_tower path], []⟩, Except.error PyError.timeoutExpired) := by
  cases h : env.run (build_cmd_open_in_tower path) with
  | completed c out =>
    cases c with
    | zero => simp [open_in_tower, check_output, h]
    | succ n => simp [open_in_tower, check_output, h, Effects.append]
  | timedOut => simp [open_in_tower, check_output, h]

/-- Claim C4 (confirmed): when the detection query completes with exit code
`c` and output `out`, `is_in_repo` returns true exactly when `c = 0` and the
trimmed output is a case-sensitive match of the literal "true"; any other
output, and any non-zero exit, yields false. -/
theorem C4_is_in_repo_truth (env : Env) (path : String) (c : Nat) (out : String)
    (h : env.run (build_cmd_is_in_repo path) = ProcOutcome.completed c out) :
    (is_in_repo env path).2 = Except.ok (c == 0 && pyStrip out == "true") := by
  cases c with
  | zero => simp [is_in_repo, check_output, h]
  | succ n => simp [is_in_repo, check_output, h]

/-- Witness for C4: in a world whose detection query prints "true" with a
trailing newline and exits 0, `is_in_repo` returns true. -/
theorem C4_witness : (is_in_repo envAllTrue "/repo").2 = Except.ok true := by
  have h := C4_is_in_repo_truth envAllTrue "/repo" 0 "true\n" rfl
  simpa using h

/-- Claim C5 (confirmed): `get_repo_root` returns the trimmed stdout of the
top-level query on success and, unlike detection, masks no failure: a
non-zero exit and a timeout both surface as errors propagated to the
caller. -/
theorem C5_get_repo_root (env : Env) (path : String) :
    (get_repo_root env path).2 =
      match env.run (build_cmd_get_repo_root path) with
      | ProcOutcome.completed 0 out => Except.ok (pyStrip out)
      | ProcOutcome.completed (Nat.succ n) out =>
        Except.error (PyError.calledProcessError (Nat.succ n) out)
      | ProcOutcome.timedOut => Except.error PyError.timeoutExpired := by
  cases h : env.run (build_cmd_get_repo_root path) with
  | completed c out =>
    cases c with
    | zero => simp [get_repo_root, check_output, h]
    | succ n => simp [get_repo_root, check_output, h]
  | timedOut => simp [get_repo_root, check_output, h]

/-- A world for the repo-creation trigger: the selected entry is a file whose
containing directory differs from it, and every spawn succeeds. -/
def envC3 : Env :=
  ⟨fun _ => ProcOutcome.completed 0 "", fun p => p == "/repo/a.txt", fun _ => "/repo"⟩

/-- Every call to `open_in_tower` spawns exactly the GUI-client command for
the path it was given. -/
theorem open_in_tower_spawned (env : Env) (path : String) :
    (open_in_tower env path).1.spawned = [build_cmd_open_in_tower path] := by
  cases h : env.run (build_cmd_open_in_tower path) with
  | completed c out =>
    cases c with
    | zero => simp [open_in_tower, check_output, h]
    | succ n => simp [open_in_tower, check_output, h, Effects.append]
  | timedOut => simp [open_in_tower, check_output, h]

/-- Claim C3 (corrected): the claim as stated is false — with a single
selected entry that is a file (so the normalized starting path is its
containing directory "/repo"), the repo-creation trigger launches with the
raw entry "/repo/a.txt", not with the normalized path. -/
theorem C3_counterexample :
    envC3.isfile "/repo/a.txt" = true
    ∧ envC3.dirname "/repo/a.txt" = "/repo"
    ∧ (towerCreate_run envC3 ["/repo/a.txt"]).1.spawned = [build_cmd_open_in_tower "/repo/a.txt"]
    ∧ (towerCreate_run envC3 ["/repo/a.txt"]).1.spawned ≠ [build_cmd_open_in_tower "/repo"] := by
  refine ⟨rfl, rfl, rfl, ?_⟩
  decide

/-- Claim C3 (amended): for every single selected entry, the repo-creation
execution of the trigger skips repo detection and unconditionally invokes External
Launch, and the path it launches with is the raw first selected entry, with
no file-to-containing-directory normalization. -/
theorem C3_amended_create_run (env : Env) (dirs : List String) (p : String)
    (h : dirs.get? 0 = Option.some p) :
    towerCreate_run env dirs = open_in_tower env p
    ∧ (towerCreate_run env dirs).1.spawned = [build_cmd_open_in_tower p] := by
  have he : towerCreate_run env dirs = open_in_tower env p := by
    unfold towerCreate_run
    rw [h]
  exact ⟨he, by rw [he]; exact open_in_tower_spawned env p⟩

/-- Witness for the amended claim C3 at a concrete file entry. -/
theorem C3_amended_witness :
    towerCreate_run envC3 ["/repo/a.txt"] = open_in_tower envC3 "/repo/a.txt"
    ∧ (towerCreate_run envC3 ["/repo/a.txt"]).1.spawned
        = [build_cmd_open_in_tower "/repo/a.txt"] :=
  C3_amended_create_run envC3 ["/repo/a.txt"] "/repo/a.txt" rfl

/-- Claim C6 (confirmed): when the number of selected entries is not exactly
one, both selection-based visibility predicates answer false whatever the
world looks like; for a single entry, the visibility of the open trigger is
the detection result on the normalized entry and the visibility of the
creation trigger is its negation (detection errors propagate in both). -/
theorem C6_selection_visibility (env : Env) (paths : List String) :
    ((towerOpenFromSidebar_is_visible env paths).2, (towerCreate_is_visible env paths).2) =
      match paths with
      | [p] =>
        ((is_in_repo env (if env.isfile p then env.dirname p else p)).2,
         Except.map (fun b => !b)
           (is_in_repo env (if env.isfile p then env.dirname p else p)).2)
      | _ => (Except.ok false, Except.ok false) := by
  cases paths with
  | nil => rfl
  | cons p rest =>
    cases rest with
    | nil =>
      rcases hr : is_in_repo env (if env.isfile p then env.dirname p else p) with ⟨eff, res⟩
      cases res with
      | ok b =>
        simp [towerOpenFromSidebar_is_visible, towerCreate_is_visible, andThen, hr, Except.map]
      | error e =>
        simp [towerOpenFromSidebar_is_visible, towerCreate_is_visible, andThen, hr, Except.map]
    | cons q rest2 =>
      simp [towerOpenFromSidebar_is_visible, towerCreate_is_visible]

/-- Claim C7 (confirmed): with no saved file (`file_name()` returning `None`
or a falsy empty string), the active-file trigger reports not visible, and
running it shows exactly the explanatory message while spawning no process at
all: no detection, no resolution, no launch. -/
theorem C7_no_saved_file (env : Env) (fileName : Option String)
    (h : py_falsy fileName = true) :
    (towerOpen_is_visible env fileName).2 = Except.ok false
    ∧ towerOpen_run env fileName = (⟨[], [unsavedFileMsg]⟩, Except.ok ()) := by
  cases fileName with
  | none => exact ⟨rfl, rfl⟩
  | some p =>
    simp only [py_falsy] at h
    refine ⟨?_, ?_⟩
    · simp [towerOpen_is_visible, h]
    · simp [towerOpen_run, h]

/-- Witness for C7 at an unsaved buffer. -/
theorem C7_witness :
    (towerOpen_is_visible envAllTrue Option.none).2 = Except.ok false
    ∧ towerOpen_run envAllTrue Option.none = (⟨[], [unsavedFileMsg]⟩, Except.ok ()) :=
  C7_no_saved_file envAllTrue Option.none rfl

/-- Detection displays no message on any of its paths. -/
theorem is_in_repo_no_messages (env : Env) (path : String) :
    (is_in_repo env path).1.messages = [] := by
  cases h : env.run (build_cmd_is_in_repo path) with
  | completed c out =>
    cases c with
    | zero => simp [is_in_repo, check_output, h]
    | succ n => simp [is_in_repo, check_output, h]
  | timedOut => simp [is_in_repo, check_output, h]

/-- Root resolution displays no message on any of its paths. -/
theorem get_repo_root_no_messages (env : Env) (path : String) :
    (get_repo_root env path).1.messages = [] := by
  cases h : env.run (build_cmd_get_repo_root path) with
  | completed c out =>
    cases c with
    | zero => simp [get_repo_root, check_output, h]
    | succ n => simp [get_repo_root, check_output, h]
  | timedOut => simp [get_repo_root, check_output, h]

/-- The launch wrapper displays at most one message. -/
theorem open_in_tower_messages_le_one (env : Env) (path : String) :
    (open_in_tower env path).1.messages.length ≤ 1 := by
  cases h : env.run (build_cmd_open_in_tower path) with
  | completed c out =>
    cases c with
    | zero => simp [open_in_tower, check_output, h]
    | succ n => simp [open_in_tower, check_output, h, Effects.append]
  | timedOut => simp [open_in_tower, check_output, h]

/-- Sequencing a message-free step with a step showing at most one message
shows at most one message. -/
theorem andThen_messages_le_one {α β : Type} (r : Effects × Except PyError α)
    (f : α → Effects × Except PyError β)
    (h1 : r.1.messages = [])
    (h2 : ∀ a, (f a).1.messages.length ≤ 1) :
    ((andThen r f).1.messages.length ≤ 1) := by
  rcases r with ⟨eff, res⟩
  simp only at h1
  cases res with
  | ok a =>
    simp only [andThen, Effects.append]
    rw [h1]
    simpa using h2 a
  | error e => simp [andThen, h1]

/-- The common gate-resolve-launch tail shows at most one message. -/
theorem gated_launch_messages_le_one (env : Env) (d : String) :
    (andThen (is_in_repo env d) (fun b =>
      if b then andThen (get_repo_root env d) (fun root => open_in_tower env root)
      else (Effects.none, Except.ok ()))).1.messages.length ≤ 1 := by
  apply andThen_messages_le_one _ _ (is_in_repo_no_messages env d)
  intro b
  cases b with
  | true =>
    simp only [if_true]
    apply andThen_messages_le_one _ _ (get_repo_root_no_messages env d)
    intro root
    exact open_in_tower_messages_le_one env root
  | false => simp [Effects.none]

/-- Claim C8 (confirmed): every invocation of any of the three trigger
bodies displays at most one message box, in every possible world and on every
input — no execution path shows two or more messages (failures surface as a
propagating exception with no further UI, never as an abort with extra
messages). -/
theorem C8_at_most_one_message (env : Env) (fileName : Option String)
    (paths dirs : List String) :
    (towerOpen_run env fileName).1.messages.length ≤ 1
    ∧ (towerOpenFromSidebar_run env paths).1.messages.length ≤ 1
    ∧ (towerCreate_run env dirs).1.messages.length ≤ 1 := by
  refine ⟨?_, ?_, ?_⟩
  · cases fileName with
    | none => simp [towerOpen_run]
    | some p =>
      cases hp : p.isEmpty with
      | true => simp [towerOpen_run, hp]
      | false =>
        simp only [towerOpen_run, hp, Bool.false_eq_true, if_false]
        exact gated_launch_messages_le_one env (env.dirname p)
  · cases paths with
    | nil => simp [towerOpenFromSidebar_run, Effects.none]
    | cons p rest =>
      simp only [towerOpenFromSidebar_run, List.get?]
      exact gated_launch_messages_le_one env (if env.isfile p then env.dirname p else p)
  · cases dirs with
    | nil => simp [towerCreate_run, Effects.none]
    | cons p rest =>
      simp only [towerCreate_run, List.get?]
      exact open_in_tower_messages_le_one env p

/-- Modelled from the spec: behaviour of the external version-control tool for
the top-level query, which is outside this repository. Following the external
interface description ("prints the absolute top-level directory of the
working tree containing `path`") and the glossary ("working-tree root: the
top-level directory of a working tree"): `rootOf` gives the root of the tree
containing a path, if any; for every path inside a working tree the query
completes with exit code 0 and its stripped stdout is that root; and a root,
being the top-level directory of its own tree, lies inside a working tree
whose root is itself. -/
structure GitModel (env : Env) (rootOf : String → Option String) : Prop where
  query_inside : ∀ p r, rootOf p = Option.some r →
    ∃ raw, env.run (build_cmd_get_repo_root p) = ProcOutcome.completed 0 raw
      ∧ pyStrip raw = r
  root_self : ∀ p r, rootOf p = Option.some r → rootOf r = Option.some r

/-- Claim C9 (confirmed): against any world satisfying `GitModel`,
`get_repo_root` is idempotent — for every path p inside a working tree,
applying `get_repo_root` to the result of `get_repo_root p` returns that same
result. -/
theorem C9_get_repo_root_idempotent (env : Env) (rootOf : String → Option String)
    (hm : GitModel env rootOf) (p r : String)
    (hp : rootOf p ≠ Option.none)
    (h : (get_repo_root env p).2 = Except.ok r) :
    (get_repo_root env r).2 = Except.ok r := by
  cases hrt : rootOf p with
  | none => exact absurd hrt hp
  | some rt =>
    obtain ⟨raw, hrun, hstrip⟩ := hm.query_inside p rt hrt
    have hpv : (get_repo_root env p).2 = Except.ok rt := by
      simp [get_repo_root, check_output, hrun, hstrip]
    rw [hpv] at h
    have hr : rt = r := Except.ok.inj h
    subst hr
    obtain ⟨raw2, hrun2, hstrip2⟩ := hm.query_inside rt rt (hm.root_self p rt hrt)
    simp [get_repo_root, check_output, hrun2, hstrip2]

/-- A world with a single working tree rooted at "/repo", whose top-level
query always answers "/repo" with a trailing newline. -/
def envGitRepo : Env :=
  ⟨fun _ => ProcOutcome.completed 0 "/repo\n", fun _ => false, fun p => p⟩

def rootOfRepo : String → Option String :=
  fun p => if p == "/repo" then Option.some "/repo" else Option.none

theorem gitModel_envGitRepo : GitModel envGitRepo rootOfRepo := by
  constructor
  · intro p r h
    by_cases hp : p = "/repo"
    · subst hp
      simp only [rootOfRepo, beq_self_eq_true, if_true, Option.some.injEq] at h
      subst h
      exact ⟨"/repo\n", rfl, by decide⟩
    · simp [rootOfRepo, hp] at h
  · intro p r h
    by_cases hp : p = "/repo"
    · subst hp
      simp only [rootOfRepo, beq_self_eq_true, if_true, Option.some.injEq] at h
      subst h
      simp [rootOfRepo]
    · simp [rootOfRepo, hp] at h

/-- Witness for C9 in the single-tree world: the resolved root of "/repo"
resolves to itself. -/
theorem C9_witness : (get_repo_root envGitRepo "/repo").2 = Except.ok "/repo" :=
  C9_get_repo_root_idempotent envGitRepo rootOfRepo gitModel_envGitRepo
    "/repo" "/repo" (by simp [rootOfRepo]) rfl

/-- Claim C10 (confirmed): both selection-based run bodies index the first
element of their list unconditionally; on an empty selection each fails with
an `IndexError` having spawned no process and shown no message, even though
the matching visibility predicates answer false on an empty selection. -/
theorem C10_empty_selection_index_error (env : Env) :
    towerOpenFromSidebar_run env [] = (Effects.none, Except.error PyError.indexError)
    ∧ towerCreate_run env [] = (Effects.none, Except.error PyError.indexError)
    ∧ (towerOpenFromSidebar_is_visible env []).2 = Except.ok false
    ∧ (towerCreate_is_visible env []).2 = Except.ok false :=
  ⟨rfl, rfl, rfl, rfl⟩
